import Mathlib

/-!
Verification of the flask-htmx-tailwind messaging endpoint and todo store,
shallowly embedded from `src/app.py`.

The websocket handler is

    @sockets.route("/websocket")
    def echo_socket(ws):
        while not ws.closed:
            message = ws.receive()
            message = json.loads(message)
            message = message.get("chat_message")
            ws.send(f"Received message: {message}")

and the todo state/handler are

    todos = [
        {"id": 1, "title": "walk the dog", "completed": False},
        {"id": 2, "title": "feed the cat", "completed": False},
    ]

    @app.route("/todo", methods=["POST"])
    def add_todo():
        todo = request.form.get("todo")
        todos.append({"id": len(todos) + 1, "title": todo, "completed": False})
        return render_template("ajax.html", todos=todos)
-/

/-- A Python value as produced by `json.loads`: `null` becomes `None`,
JSON booleans become Python booleans, numbers become `int` (the model
restricts JSON numbers to integers; no claim depends on float rendering),
strings become `str`, arrays become `list`, objects become `dict` with
string keys (a Python dict, so keys are unique after parsing). -/
inductive PyVal where
  | none
  | bool (b : Bool)
  | int (n : Int)
  | str (s : String)
  | list (xs : List PyVal)
  | dict (kvs : List (String × PyVal))
deriving Repr

/-- CPython chooses single quotes for `repr` of a string unless the string
contains a single quote and no double quote. -/
def pyQuoteChar (s : String) : Char :=
  let sq : Char := Char.ofNat 39
  let dq : Char := Char.ofNat 34
  if s.contains sq && !s.contains dq then dq else sq

/-- Escape one character inside a CPython string `repr` with quote
character `q`: backslash and the quote character are backslash-escaped,
and the common control characters newline, carriage return and tab are
rendered as their two-character escapes. -/
def pyEscChar (q : Char) (c : Char) : String :=
  let bs : Char := Char.ofNat 92
  if c = bs then String.mk [bs, bs]
  else if c = q then String.mk [bs, q]
  else if c = Char.ofNat 10 then String.mk [bs, Char.ofNat 110]
  else if c = Char.ofNat 13 then String.mk [bs, Char.ofNat 114]
  else if c = Char.ofNat 9 then String.mk [bs, Char.ofNat 116]
  else String.mk [c]

/-- CPython `repr` of a string: the chosen quote character around the
escaped characters. -/
def pyStrRepr (s : String) : String :=
  let q := pyQuoteChar s
  String.mk [q] ++ String.join (s.toList.map (pyEscChar q)) ++ String.mk [q]

mutual
/-- CPython `repr` of a JSON-derived value: `None`, `True`/`False`,
decimal integers, quoted strings, and bracketed containers whose
elements are themselves rendered with `repr`. -/
def pyRepr : PyVal → String
  | .none => "None"
  | .bool true => "True"
  | .bool false => "False"
  | .int n => toString n
  | .str s => pyStrRepr s
  | .list xs => "[" ++ pyReprList xs ++ "]"
  | .dict kvs => "\x7b" ++ pyReprDict kvs ++ "\x7d"

/-- Comma-separated `repr` of list elements. -/
def pyReprList : List PyVal → String
  | [] => ""
  | [x] => pyRepr x
  | x :: y :: xs => pyRepr x ++ ", " ++ pyReprList (y :: xs)

/-- Comma-separated `repr` of dict entries, each `key_repr: value_repr`. -/
def pyReprDict : List (String × PyVal) → String
  | [] => ""
  | [(k, v)] => pyStrRepr k ++ ": " ++ pyRepr v
  | (k, v) :: e :: kvs => pyStrRepr k ++ ": " ++ pyRepr v ++ ", " ++ pyReprDict (e :: kvs)
end

/-- CPython `str` of a JSON-derived value, which is what an f-string
interpolation applies: a string renders as itself (no quotes), every
other value renders as its `repr`. -/
def pyStr : PyVal → String
  | .str s => s
  | v => pyRepr v

/-- Python `dict.get(k)`: the value bound to `k`, if any (keys of a
parsed dict are unique, so first match is the binding). -/
def dictGet (kvs : List (String × PyVal)) (k : String) : Option PyVal :=
  (kvs.find? (fun kv => kv.1 = k)).map (fun kv => kv.2)

/-- One inbound websocket unit, abstracted at the `json.loads` boundary:
either raw text that `json.loads` rejects, or raw text whose parse
result is the given value. -/
inductive Inbound where
  | malformed
  | parsed (v : PyVal)
deriving Repr

/-- The unhandled exception a loop iteration can raise: `json.loads`
raises a decode error on malformed text, and `message.get` raises
`AttributeError` when the parsed value is not a dict. -/
inductive PyError where
  | jsonDecodeError
  | attributeError
deriving Repr, DecidableEq

/-- Result of one iteration body on one inbound unit. -/
inductive Outcome where
  | reply (s : String)
  | err (e : PyError)
deriving Repr, DecidableEq

/-- The body of one `echo_socket` iteration after `ws.receive()`:
`json.loads` (fails on malformed text), then `.get("chat_message")`
(an `AttributeError` unless the value is a dict; `None` when the key is
absent), then the f-string reply sent back. -/
def processUnit : Inbound → Outcome
  | .malformed => .err .jsonDecodeError
  | .parsed (.dict kvs) =>
      .reply ("Received message: " ++ pyStr ((dictGet kvs "chat_message").getD .none))
  | .parsed _ => .err .attributeError

/-- The `echo_socket` loop over the whole inbound sequence of one
connection (the peer closes after the last unit, so `ws.closed` becomes
true exactly when the list is exhausted): returns the replies sent in
order, and the exception that ended the handler if one was raised.
An exception aborts the loop, so no later unit is processed. -/
def echoLoop : List Inbound → List String × Option PyError
  | [] => ([], Option.none)
  | u :: rest =>
    match processUnit u with
    | .reply s =>
        let r := echoLoop rest
        (s :: r.1, r.2)
    | .err e => ([], some e)

/-- The reply produced for a unit the loop answers (placeholder empty
string for units that raise; only used under a hypothesis ruling that
out). -/
def unitReply (u : Inbound) : String :=
  match processUnit u with
  | .reply s => s
  | .err _ => ""

/-- A unit is a valid inbound record when it parses as a dict
(the "structured record" of the spec). -/
def validRecord (u : Inbound) : Prop :=
  ∃ kvs, u = .parsed (.dict kvs)

/-- State of one websocket connection: the `ws.closed` flag, whether the
handler died from an unhandled exception, the units sent by the peer and
not yet received, and the replies sent so far. -/
structure Conn where
  closed : Bool
  crashed : Bool
  inbox : List Inbound
  sent : List String
deriving Repr

/-- One iteration of `echo_socket` as a transition: enabled only while
`ws.closed` is false, the handler is alive, and a unit is available to
receive (otherwise `ws.receive()` blocks and no step occurs). A reply
outcome appends to the sent log; an exception marks the handler dead.
Neither case touches the closed flag: the endpoint never closes the
connection. -/
inductive EndpointStep : Conn → Conn → Prop
  | iter (c : Conn) (u : Inbound) (rest : List Inbound) (s : String)
      (hopen : c.closed = false) (halive : c.crashed = false)
      (hin : c.inbox = u :: rest) (hp : processUnit u = .reply s) :
      EndpointStep c ⟨c.closed, false, rest, c.sent ++ [s]⟩
  | crash (c : Conn) (u : Inbound) (rest : List Inbound) (e : PyError)
      (hopen : c.closed = false) (halive : c.crashed = false)
      (hin : c.inbox = u :: rest) (hp : processUnit u = .err e) :
      EndpointStep c ⟨c.closed, true, rest, c.sent⟩

/-- Any transition of the connection: an endpoint iteration, the peer
delivering a unit, or the peer disconnecting (the only transition that
sets the closed flag). -/
inductive Step : Conn → Conn → Prop
  | endpoint (c c' : Conn) (h : EndpointStep c c') : Step c c'
  | peerSend (c : Conn) (u : Inbound) (hopen : c.closed = false) :
      Step c ⟨c.closed, c.crashed, c.inbox ++ [u], c.sent⟩
  | peerClose (c : Conn) (hopen : c.closed = false) :
      Step c ⟨true, c.crashed, c.inbox, c.sent⟩

/-- One todo record: `id`, `title` (the `form.get` result, absent when
the field was missing), `completed`. -/
structure Todo where
  id : Nat
  title : Option String
  completed : Bool
deriving Repr, DecidableEq

/-- The initial process-wide `todos` list. -/
def todosInit : List Todo :=
  [⟨1, some "walk the dog", false⟩, ⟨2, some "feed the cat", false⟩]

/-- The mutation performed by `add_todo`: read the `todo` form field
(absent-tolerant) and append one record with `id = len(todos) + 1`,
the field as title, and `completed = False`. -/
def addTodo (form : Option String) (ts : List Todo) : List Todo :=
  ts ++ [⟨ts.length + 1, form, false⟩]

/-- The todo list after a sequence of `add_todo` requests starting from
the initial state. -/
def applyAdds (ops : List (Option String)) : List Todo :=
  ops.foldl (fun ts f => addTodo f ts) todosInit

/-! ## Helper lemmas -/

theorem addTodo_map_id (f : Option String) (ts : List Todo)
    (h : ts.map Todo.id = List.range' 1 ts.length) :
    (addTodo f ts).map Todo.id = List.range' 1 (addTodo f ts).length := by
  simp only [addTodo, List.map_append, List.length_append, List.map_cons, List.map_nil,
    List.length_cons, List.length_nil, h]
  rw [List.range'_concat]
  simp [Nat.add_comm]

theorem applyAdds_map_id (ops : List (Option String)) :
    (applyAdds ops).map Todo.id = List.range' 1 (applyAdds ops).length := by
  have base : todosInit.map Todo.id = List.range' 1 todosInit.length := rfl
  suffices h : ∀ (ts : List Todo), ts.map Todo.id = List.range' 1 ts.length →
      (ops.foldl (fun ts f => addTodo f ts) ts).map Todo.id =
      List.range' 1 (ops.foldl (fun ts f => addTodo f ts) ts).length by
    exact h todosInit base
  induction ops with
  | nil => intro ts h; exact h
  | cons op rest ih =>
    intro ts h
    exact ih (addTodo op ts) (addTodo_map_id op ts h)

/-! ## Claims -/

/-- C1: for every inbound unit parsing as a dict whose `chat_message`
field holds the string `X`, the loop body produces exactly one reply,
the text `"Received message: X"`. -/
theorem echo_reply_for_string_field (kvs : List (String × PyVal)) (X : String)
    (h : dictGet kvs "chat_message" = some (PyVal.str X)) :
    processUnit (.parsed (.dict kvs)) = .reply ("Received message: " ++ X) := by
  have hdef : processUnit (.parsed (.dict kvs)) =
      .reply ("Received message: " ++ pyStr ((dictGet kvs "chat_message").getD .none)) := rfl
  rw [hdef, h]
  rfl

/-- Witness for C1: the spec scenario `{"chat_message": "hello"}`. -/
theorem echo_reply_for_string_field_witness :
    dictGet [("chat_message", PyVal.str "hello")] "chat_message" = some (PyVal.str "hello") ∧
    processUnit (.parsed (.dict [("chat_message", PyVal.str "hello")])) =
      .reply "Received message: hello" :=
  ⟨rfl, echo_reply_for_string_field [("chat_message", PyVal.str "hello")] "hello" rfl⟩

/-- C2: once the closed flag is true no endpoint step (hence no receive)
is possible, and a connection whose peer closes before sending any unit
produces no reply at all. -/
theorem closed_flag_stops_loop :
    (∀ c : Conn, c.closed = true → ∀ c', ¬ EndpointStep c c') ∧
    echoLoop [] = ([], Option.none) := by
  refine ⟨?_, rfl⟩
  intro c hc c' hstep
  cases hstep with
  | iter u rest s hopen halive hin hp => rw [hc] at hopen; exact Bool.noConfusion hopen
  | crash u rest e hopen halive hin hp => rw [hc] at hopen; exact Bool.noConfusion hopen

/-- Witness for C2: a concrete closed connection admits no endpoint step. -/
theorem closed_flag_stops_loop_witness :
    (Conn.mk true false [] []).closed = true ∧
    ¬ EndpointStep (Conn.mk true false [] []) (Conn.mk true false [] []) :=
  ⟨rfl, closed_flag_stops_loop.1 (Conn.mk true false [] []) rfl (Conn.mk true false [] [])⟩

/-- C3: an inbound unit parsing as a dict without a `chat_message` field
does not fail: `dict.get` yields `None` and the reply is
`"Received message: None"`. -/
theorem missing_field_reply (kvs : List (String × PyVal))
    (h : dictGet kvs "chat_message" = Option.none) :
    processUnit (.parsed (.dict kvs)) = .reply "Received message: None" := by
  have hdef : processUnit (.parsed (.dict kvs)) =
      .reply ("Received message: " ++ pyStr ((dictGet kvs "chat_message").getD .none)) := rfl
  rw [hdef, h]
  rfl

/-- Witness for C3: a dict with an unrelated key only. -/
theorem missing_field_reply_witness :
    dictGet [("other", PyVal.int 3)] "chat_message" = Option.none ∧
    processUnit (.parsed (.dict [("other", PyVal.int 3)])) =
      .reply "Received message: None" :=
  ⟨rfl, missing_field_reply [("other", PyVal.int 3)] rfl⟩

/-- C4: a unit `json.loads` rejects raises an unhandled decode error:
no reply is produced for it and the loop aborts without processing any
later unit. -/
theorem malformed_unit_fatal (rest : List Inbound) :
    processUnit .malformed = .err .jsonDecodeError ∧
    echoLoop (.malformed :: rest) = ([], some .jsonDecodeError) :=
  ⟨rfl, rfl⟩

/-- C5: a sequence of valid inbound records yields exactly one reply per
record, in order, each determined by its own record alone (the loop
carries no state across iterations). -/
theorem valid_sequence_replies (units : List Inbound)
    (h : ∀ u ∈ units, validRecord u) :
    echoLoop units = (units.map unitReply, Option.none) := by
  induction units with
  | nil => rfl
  | cons u rest ih =>
    obtain ⟨kvs, rfl⟩ := h u (List.mem_cons_self u rest)
    have hrest := ih (fun x hx => h x (List.mem_cons_of_mem _ hx))
    simp only [echoLoop, processUnit, unitReply, hrest, List.map_cons]

/-- Witness for C5: the spec scenario of `"hi"` then `"bye"` giving two
replies in order. -/
theorem valid_sequence_replies_witness :
    (∀ u ∈ [Inbound.parsed (.dict [("chat_message", PyVal.str "hi")]),
            Inbound.parsed (.dict [("chat_message", PyVal.str "bye")])], validRecord u) ∧
    echoLoop [Inbound.parsed (.dict [("chat_message", PyVal.str "hi")]),
              Inbound.parsed (.dict [("chat_message", PyVal.str "bye")])] =
      (["Received message: hi", "Received message: bye"], Option.none) := by
  have hv : ∀ u ∈ [Inbound.parsed (.dict [("chat_message", PyVal.str "hi")]),
      Inbound.parsed (.dict [("chat_message", PyVal.str "bye")])], validRecord u := by
    intro u hu
    rcases List.mem_cons.mp hu with rfl | hu2
    · exact ⟨_, rfl⟩
    rcases List.mem_cons.mp hu2 with rfl | hu3
    · exact ⟨_, rfl⟩
    cases hu3
  exact ⟨hv, valid_sequence_replies _ hv⟩

/-- C6: from the initial two todos, any sequence of `add_todo` calls
keeps the ids exactly `1..n` (hence unique and monotone), and each call
appends exactly one record with id the new length and `completed`
false, leaving existing records unchanged. -/
theorem todo_ids_invariant :
    (∀ ops : List (Option String),
        (applyAdds ops).map Todo.id = List.range' 1 (applyAdds ops).length) ∧
    (∀ (f : Option String) (ts : List Todo),
        addTodo f ts = ts ++ [⟨ts.length + 1, f, false⟩]) :=
  ⟨applyAdds_map_id, fun _ _ => rfl⟩

/-- C7: no endpoint step changes the closed flag, and the only
transition from open to closed is the peer-initiated disconnect. -/
theorem endpoint_never_closes :
    (∀ c c', EndpointStep c c' → c'.closed = c.closed) ∧
    (∀ c c', Step c c' → c.closed = false → c'.closed = true →
        c' = ⟨true, c.crashed, c.inbox, c.sent⟩) := by
  have hend : ∀ c c', EndpointStep c c' → c'.closed = c.closed := by
    intro c c' hstep
    cases hstep with
    | iter u rest s hopen halive hin hp => rfl
    | crash u rest e hopen halive hin hp => rfl
  refine ⟨hend, ?_⟩
  intro c c' hstep hopen hclosed
  cases hstep with
  | endpoint a b =>
    rw [hend c c' b, hopen] at hclosed
    exact absurd hclosed (by simp)
  | peerSend a b => simp [hopen] at hclosed
  | peerClose a => rfl

/-- Witness for C7: a concrete peer disconnect on an open connection. -/
theorem endpoint_never_closes_witness :
    (Conn.mk false false [] []).closed = false ∧
    (Conn.mk true false [] []).closed = true ∧
    (Conn.mk true false [] []) = Conn.mk true false [] [] :=
  ⟨rfl, rfl,
    endpoint_never_closes.2 (Conn.mk false false [] []) (Conn.mk true false [] [])
      (Step.peerClose (Conn.mk false false [] []) rfl) rfl rfl⟩

/-- C8: valid JSON whose top-level value is not an object fails at the
`.get` field extraction with an `AttributeError` (not a decode error):
no reply for that unit and the loop aborts, so absent-field tolerance
applies only to objects. -/
theorem nondict_json_attribute_error (v : PyVal)
    (h : ∀ kvs, v ≠ PyVal.dict kvs) :
    processUnit (.parsed v) = .err .attributeError ∧
    ∀ rest, echoLoop (.parsed v :: rest) = ([], some .attributeError) := by
  cases v with
  | dict kvs => exact absurd rfl (h kvs)
  | none => exact ⟨rfl, fun rest => rfl⟩
  | bool b => exact ⟨rfl, fun rest => rfl⟩
  | int n => exact ⟨rfl, fun rest => rfl⟩
  | str s => exact ⟨rfl, fun rest => rfl⟩
  | list xs => exact ⟨rfl, fun rest => rfl⟩

/-- Witness for C8: a top-level JSON array. -/
theorem nondict_json_attribute_error_witness :
    (∀ kvs, PyVal.list [] ≠ PyVal.dict kvs) ∧
    processUnit (.parsed (PyVal.list [])) = .err .attributeError :=
  ⟨(fun _ h => nomatch h),
    (nondict_json_attribute_error (PyVal.list []) (fun _ h => nomatch h)).1⟩

/-- C10: `add_todo` validates nothing: for every form value, including
an absent `todo` field, it appends exactly one record whose title is the
form value, and the list grows by exactly one. -/
theorem add_todo_no_validation (form : Option String) (ts : List Todo) :
    addTodo form ts = ts ++ [⟨ts.length + 1, form, false⟩] ∧
    (addTodo form ts).length = ts.length + 1 ∧
    addTodo Option.none ts = ts ++ [⟨ts.length + 1, Option.none, false⟩] :=
  ⟨rfl, by simp [addTodo], rfl⟩
